import Mathlib

/-!
Shallow embedding of the subdex parachain DEX: the pallet-subdex module
(pools, swaps, liquidity, ledger) and the dex-xcmp bridging handler.

Modelling conventions: account identifiers and asset identifiers are natural
numbers; amounts are natural numbers (the Balance type is unsigned and
generic, so checked_add and checked_mul are total in this unbounded model);
ledger entries for parachain assets are integers so that an underflowing
unchecked debit (the Rust subtraction assignment on an unsigned balance) is
visible as a negative entry; native currency balances are natural numbers
because the external Currency slash saturates at zero.  Fallible code
returns Except over the error enum of the pallet.  The Exchange record and
its methods live in the exchange module of the repository, which is not part
of the available sources; those definitions are modelled from the spec and
say so in their doc comments.  Everything else is translated from
pallets/pallet-subdex/src/lib.rs and pallets/dex-xcmp/src/lib.rs.
-/

/-- Association list lookup with decidable key equality (first match wins). -/
def alookup {α β : Type} [DecidableEq α] : List (α × β) → α → Option β
  | [], _ => none
  | (k, v) :: rest, a => if k = a then some v else alookup rest a

/-- Association list update, inserting the key at the end when absent. -/
def aset {α β : Type} [DecidableEq α] : List (α × β) → α → β → List (α × β)
  | [], a, b => [(a, b)]
  | (k, v) :: rest, a, b => if k = a then (a, b) :: rest else (k, v) :: aset rest a b

deriving instance DecidableEq for Except

/-- Asset enum of pallet-subdex: the main network currency, natively
supported, or the internal representation of an asset from another
parachain. -/
inductive Asset where
  | MainNetworkCurrency : Asset
  | ParachainAsset (id : Nat) : Asset
  deriving DecidableEq, Repr

/-- Error enum of pallet-subdex (decl_error block of lib.rs). -/
inductive DexError where
  | ExchangeNotExists
  | ExchangeAlreadyExists
  | InvalidExchange
  | InvariantNotNull
  | TotalSharesNotNull
  | LowFirstAssetAmount
  | LowSecondAssetAmount
  | FirstAssetAmountBelowExpectation
  | SecondAssetAmountBelowExpectation
  | InsufficientPool
  | InvalidShares
  | InsufficientShares
  | DoesNotOwnShare
  | InsufficientKsmBalance
  | InsufficientOtherAssetBalance
  | OverflowOccured
  | UnderflowOccured
  | UnderflowOrOverflowOccured
  deriving DecidableEq, Repr

/-- Treasury configuration of pallet-subdex (struct DexTreasury): the
treasury account and the fraction of the swap fee that accrues to it. -/
structure DexTreasury where
  dex_account : Nat
  treasury_fee_rate_nominator : Nat
  treasury_fee_rate_denominator : Nat
  deriving DecidableEq, Repr

/-- Event enum of pallet-subdex (decl_event block of lib.rs). -/
inductive RawEvent where
  | Exchanged (account : Nat) (asset_in : Asset) (asset_in_amount : Nat)
      (asset_out : Asset) (asset_out_amount : Nat) (treasury_fee : Option Nat)
  | Invested (account : Nat) (first_asset second_asset : Asset) (shares : Nat)
  | Divested (account : Nat) (first_asset second_asset : Asset) (shares : Nat)
  deriving DecidableEq, Repr

/-- Modelled from the spec: the Exchange (pool) record of the missing
exchange module — reserves of the two assets of the canonical pair, the
cached invariant (product of the reserves), the total outstanding shares,
and the per-account share map (a BTreeMap in the source, modelled as an
association list). -/
structure Exchange where
  first_asset_pool : Nat
  second_asset_pool : Nat
  invariant : Nat
  total_shares : Nat
  shares : List (Nat × Nat)
  deriving DecidableEq, Repr

/-- Storage default of the Exchanges double map: the degenerate zero pool. -/
def defaultExchange : Exchange :=
  { first_asset_pool := 0, second_asset_pool := 0, invariant := 0
    total_shares := 0, shares := [] }

/-- Modelled from the spec: result record of a swap computation in the
missing exchange module — the output amount and the two new pool values. -/
structure SwapDelta where
  amount : Nat
  first_asset_pool : Nat
  second_asset_pool : Nat
  deriving DecidableEq, Repr

/-- Modelled from the spec: section 4.4 initialize of the missing exchange
module.  The positivity and non-existence checks are done by the caller in
lib.rs; the pool is seeded with the two amounts, the invariant is their
product, and the issued shares equal the first (low) amount, credited
entirely to the sender.  The result type is fallible because the source uses
checked multiplication, which is total over unbounded naturals. -/
def Exchange.initialize_new (first_asset_amount second_asset_amount sender : Nat) :
    Except DexError (Exchange × Nat) :=
  .ok ({ first_asset_pool := first_asset_amount
         second_asset_pool := second_asset_amount
         invariant := first_asset_amount * second_asset_amount
         total_shares := first_asset_amount
         shares := [(sender, first_asset_amount)] }, first_asset_amount)

/-- Modelled from the spec: launch guard of the missing exchange module,
called by initialize_exchange on the stored pool; the pool must still be in
the degenerate state (invariant and total shares both zero), matching the
InvariantNotNull and TotalSharesNotNull error names. -/
def Exchange.ensure_launch (e : Exchange) : Except DexError Unit :=
  if e.invariant ≠ 0 then .error .InvariantNotNull
  else if e.total_shares ≠ 0 then .error .TotalSharesNotNull
  else .ok ()

/-- Modelled from the spec: section 4.4 cost_of_shares of the missing
exchange module.  The orchestrator in lib.rs calls this same function from
both invest_liquidity and divest_liquidity, so a single rounding policy
applies to both; the floor rounding of the divest clause is used (natural
division).  Fails with TotalSharesNotNull when the total shares are zero
(checked division). -/
def Exchange.calculate_costs (e : Exchange) (shares : Nat) :
    Except DexError (Nat × Nat) :=
  if e.total_shares = 0 then .error .TotalSharesNotNull
  else .ok (shares * e.first_asset_pool / e.total_shares,
            shares * e.second_asset_pool / e.total_shares)

/-- Modelled from the spec: section 4.3 swap engine, low-to-high direction
(the first asset of the canonical pair is the input).  Fee on input with
floor rounding; the fee subtraction is checked (UnderflowOccured), the
divisor is checked against zero as checked division would be
(UnderflowOrOverflowOccured), the output must be strictly below the output
reserve (InsufficientPool when amt_out is at least the reserve), and the
treasury cut is charged only when the treasury fee rate denominator is
nonzero (treasury enabled); the returned data pairs the treasury fee with
the treasury account. -/
def Exchange.calculate_first_to_second_asset_swap (e : Exchange)
    (feeNom feeDen : Nat) (tr : DexTreasury) (amt_in : Nat) :
    Except DexError (SwapDelta × Option (Nat × Nat)) :=
  let fee_total := amt_in * feeNom / feeDen
  if amt_in < fee_total then .error .UnderflowOccured
  else
    let amt_in_net := amt_in - fee_total
    if e.first_asset_pool + amt_in_net = 0 then .error .UnderflowOrOverflowOccured
    else
      let amt_out := amt_in_net * e.second_asset_pool / (e.first_asset_pool + amt_in_net)
      if e.second_asset_pool ≤ amt_out then .error .InsufficientPool
      else
        let treasury_fee_data :=
          if tr.treasury_fee_rate_denominator = 0 then none
          else some (fee_total * tr.treasury_fee_rate_nominator /
                       tr.treasury_fee_rate_denominator, tr.dex_account)
        let treasury_fee := (treasury_fee_data.map Prod.fst).getD 0
        if e.first_asset_pool + amt_in < treasury_fee then .error .UnderflowOccured
        else
          .ok ({ amount := amt_out
                 first_asset_pool := e.first_asset_pool + amt_in - treasury_fee
                 second_asset_pool := e.second_asset_pool - amt_out },
               treasury_fee_data)

/-- Modelled from the spec: section 4.3 swap engine, high-to-low direction
(the second asset of the canonical pair is the input); the same formula as
the low-to-high direction with the roles of the reserves swapped. -/
def Exchange.calculate_second_to_first_asset_swap (e : Exchange)
    (feeNom feeDen : Nat) (tr : DexTreasury) (amt_in : Nat) :
    Except DexError (SwapDelta × Option (Nat × Nat)) :=
  let fee_total := amt_in * feeNom / feeDen
  if amt_in < fee_total then .error .UnderflowOccured
  else
    let amt_in_net := amt_in - fee_total
    if e.second_asset_pool + amt_in_net = 0 then .error .UnderflowOrOverflowOccured
    else
      let amt_out := amt_in_net * e.first_asset_pool / (e.second_asset_pool + amt_in_net)
      if e.first_asset_pool ≤ amt_out then .error .InsufficientPool
      else
        let treasury_fee_data :=
          if tr.treasury_fee_rate_denominator = 0 then none
          else some (fee_total * tr.treasury_fee_rate_nominator /
                       tr.treasury_fee_rate_denominator, tr.dex_account)
        let treasury_fee := (treasury_fee_data.map Prod.fst).getD 0
        if e.second_asset_pool + amt_in < treasury_fee then .error .UnderflowOccured
        else
          .ok ({ amount := amt_out
                 first_asset_pool := e.first_asset_pool - amt_out
                 second_asset_pool := e.second_asset_pool + amt_in - treasury_fee },
               treasury_fee_data)

/-- Modelled from the spec: slippage guard of the missing exchange module;
the computed output on the second-asset side must reach the caller minimum. -/
def Exchange.ensure_second_asset_amount (_e : Exchange)
    (amount min_amount : Nat) : Except DexError Unit :=
  if amount < min_amount then .error .SecondAssetAmountBelowExpectation else .ok ()

/-- Modelled from the spec: slippage guard of the missing exchange module;
the computed output on the first-asset side must reach the caller minimum. -/
def Exchange.ensure_first_asset_amount (_e : Exchange)
    (amount min_amount : Nat) : Except DexError Unit :=
  if amount < min_amount then .error .FirstAssetAmountBelowExpectation else .ok ()

/-- Modelled from the spec: commit of the new pool values after a swap in
the missing exchange module.  The invariant is recomputed as the product of
the new reserves, and the spec requires the recomputed invariant to be
monotonically non-decreasing, failing closed on a violation (the spec names
no error for this defect; InvalidExchange is used here). -/
def Exchange.update_pools (e : Exchange) (p1 p2 : Nat) : Except DexError Exchange :=
  if p1 * p2 < e.invariant then .error .InvalidExchange
  else .ok { e with first_asset_pool := p1, second_asset_pool := p2
                    invariant := p1 * p2 }

/-- Modelled from the spec: ownership guard of the missing exchange module;
the sender must own at least the burned shares (DoesNotOwnShare when the
account has no entry, InsufficientShares when the entry is too small). -/
def Exchange.ensure_burned_shares (e : Exchange) (sender shares_burned : Nat) :
    Except DexError Unit :=
  match alookup e.shares sender with
  | none => .error .DoesNotOwnShare
  | some owned =>
      if owned < shares_burned then .error .InsufficientShares else .ok ()

/-- Modelled from the spec: section 4.4 invest of the missing exchange
module — requires positive shares (InvalidShares); increases the reserves by
the costs, the total shares and the account shares by the invested shares,
and recomputes the invariant. -/
def Exchange.invest (e : Exchange)
    (first_asset_cost second_asset_cost shares sender : Nat) :
    Except DexError Exchange :=
  if shares = 0 then .error .InvalidShares
  else
    let new_first := e.first_asset_pool + first_asset_cost
    let new_second := e.second_asset_pool + second_asset_cost
    let owned := (alookup e.shares sender).getD 0
    .ok { first_asset_pool := new_first
          second_asset_pool := new_second
          invariant := new_first * new_second
          total_shares := e.total_shares + shares
          shares := aset e.shares sender (owned + shares) }

/-- Modelled from the spec: section 4.4 divest of the missing exchange
module — requires the sender to own the burned shares and the burned shares
and costs to fit the totals (checked subtraction); decrements symmetrically
to invest and recomputes the invariant, so a full divest reverts the pool to
the degenerate zero representation. -/
def Exchange.divest (e : Exchange)
    (first_asset_cost second_asset_cost shares_burned sender : Nat) :
    Except DexError Exchange :=
  match alookup e.shares sender with
  | none => .error .DoesNotOwnShare
  | some owned =>
      if owned < shares_burned then .error .InsufficientShares
      else if e.total_shares < shares_burned then .error .InsufficientShares
      else if e.first_asset_pool < first_asset_cost then .error .UnderflowOccured
      else if e.second_asset_pool < second_asset_cost then .error .UnderflowOccured
      else
        let new_first := e.first_asset_pool - first_asset_cost
        let new_second := e.second_asset_pool - second_asset_cost
        .ok { first_asset_pool := new_first
              second_asset_pool := new_second
              invariant := new_first * new_second
              total_shares := e.total_shares - shares_burned
              shares := aset e.shares sender (owned - shares_burned) }

/-- Global storage of pallet-subdex: the Exchanges double map keyed by the
canonical asset pair, the AssetBalances double map ((account, asset id) to
balance, an integer so that an underflowing unchecked debit is visible as a
negative entry), the free balances of the external native Currency, and the
DEXTreasury configuration. -/
structure State where
  exchanges : List ((Asset × Asset) × Exchange)
  asset_balances : List ((Nat × Nat) × Int)
  native_balances : List (Nat × Nat)
  dex_treasury : DexTreasury
  deriving DecidableEq, Repr

/-- Storage read of the Exchanges double map (default value when absent). -/
def State.getExchange (st : State) (first_asset second_asset : Asset) : Exchange :=
  (alookup st.exchanges (first_asset, second_asset)).getD defaultExchange

/-- Storage read of the AssetBalances double map (default zero). -/
def State.asset_balance (st : State) (account asset_id : Nat) : Int :=
  (alookup st.asset_balances (account, asset_id)).getD 0

/-- Free balance of the external native Currency (default zero). -/
def State.free_balance (st : State) (account : Nat) : Nat :=
  (alookup st.native_balances account).getD 0

/-- Debit of lib.rs slash_asset: for the native currency the external
Currency slash saturates at zero (natural subtraction); for a parachain
asset the ledger entry is decremented by the unchecked Rust subtraction
assignment, so the integer entry records an underflow as a negative value. -/
def slash_asset (st : State) (who : Nat) (asset : Asset) (asset_amount : Nat) : State :=
  match asset with
  | .MainNetworkCurrency =>
      { st with
          native_balances :=
            aset st.native_balances who (st.free_balance who - asset_amount) }
  | .ParachainAsset asset_id =>
      { st with
          asset_balances :=
            aset st.asset_balances (who, asset_id)
              (st.asset_balance who asset_id - (asset_amount : Int)) }

/-- Double debit of lib.rs slash_assets: slash the first asset, then the
second. -/
def slash_assets (st : State) (who : Nat) (first_asset : Asset)
    (first_asset_amount : Nat) (second_asset : Asset)
    (second_asset_amount : Nat) : State :=
  slash_asset (slash_asset st who first_asset first_asset_amount)
    who second_asset second_asset_amount

/-- Credit of lib.rs mint_asset: deposit_creating for the native currency;
for a parachain asset the entry is incremented when present and inserted at
the amount when absent (the contains_key branch of the source). -/
def mint_asset (st : State) (dest : Nat) (asset : Asset) (asset_amount : Nat) : State :=
  match asset with
  | .MainNetworkCurrency =>
      { st with
          native_balances :=
            aset st.native_balances dest (st.free_balance dest + asset_amount) }
  | .ParachainAsset asset_id =>
      match alookup st.asset_balances (dest, asset_id) with
      | some total =>
          { st with
              asset_balances :=
                aset st.asset_balances (dest, asset_id) (total + (asset_amount : Int)) }
      | none =>
          { st with
              asset_balances :=
                aset st.asset_balances (dest, asset_id) ((asset_amount : Int)) }

/-- Double credit of lib.rs mint_assets: mint the first asset, then the
second. -/
def mint_assets (st : State) (dest : Nat) (first_asset : Asset)
    (first_asset_amount : Nat) (second_asset : Asset)
    (second_asset_amount : Nat) : State :=
  mint_asset (mint_asset st dest first_asset first_asset_amount)
    dest second_asset second_asset_amount

/-- Guard of lib.rs ensure_valid_exchange: the two sides of a swap must not
be the same asset. -/
def ensure_valid_exchange (asset_in asset_out : Asset) : Except DexError Unit :=
  match asset_in, asset_out with
  | .MainNetworkCurrency, .MainNetworkCurrency => .error .InvalidExchange
  | .ParachainAsset asset_in_id, .ParachainAsset asset_out_id =>
      if asset_in_id = asset_out_id then .error .InvalidExchange else .ok ()
  | _, _ => .ok ()

/-- Guard of lib.rs ensure_exchange_exists: the stored pool must be active
(positive invariant). -/
def ensure_exchange_exists (st : State) (first_asset second_asset : Asset) :
    Except DexError Exchange :=
  let exchange := st.getExchange first_asset second_asset
  if 0 < exchange.invariant then .ok exchange else .error .ExchangeNotExists

/-- Guard of lib.rs ensure_exchange_not_exists: the stored pool must still
be degenerate (zero invariant). -/
def ensure_exchange_not_exists (st : State) (first_asset second_asset : Asset) :
    Except DexError Unit :=
  if (st.getExchange first_asset second_asset).invariant = 0 then .ok ()
  else .error .ExchangeAlreadyExists

/-- Canonicalization of lib.rs adjust_assets_amount_order: order the pair
(native before parachain assets, parachain assets by id) and carry the
amounts along. -/
def adjust_assets_amount_order (first_asset : Asset) (first_asset_amount : Nat)
    (second_asset : Asset) (second_asset_amount : Nat) :
    Asset × Nat × Asset × Nat :=
  match first_asset, second_asset with
  | .MainNetworkCurrency, .ParachainAsset _ =>
      (first_asset, first_asset_amount, second_asset, second_asset_amount)
  | .ParachainAsset _, .MainNetworkCurrency =>
      (second_asset, second_asset_amount, first_asset, first_asset_amount)
  | .ParachainAsset first_asset_id, .ParachainAsset second_asset_id =>
      if first_asset_id > second_asset_id then
        (second_asset, second_asset_amount, first_asset, first_asset_amount)
      else
        (first_asset, first_asset_amount, second_asset, second_asset_amount)
  | _, _ => (first_asset, first_asset_amount, second_asset, second_asset_amount)

/-- Canonicalization of lib.rs adjust_assets_order: order the pair and
report whether the caller order was reversed. -/
def adjust_assets_order (first_asset second_asset : Asset) :
    Asset × Asset × Bool :=
  match first_asset, second_asset with
  | .MainNetworkCurrency, .ParachainAsset _ => (first_asset, second_asset, false)
  | .ParachainAsset _, .MainNetworkCurrency => (second_asset, first_asset, true)
  | .ParachainAsset first_asset_id, .ParachainAsset second_asset_id =>
      if first_asset_id > second_asset_id then (second_asset, first_asset, true)
      else (first_asset, second_asset, false)
  | _, _ => (first_asset, second_asset, false)

/-- Guard of lib.rs ensure_sufficient_balance: for the native currency the
checked subtraction from the free balance must succeed (the model carries no
locks, so ensure_can_withdraw always passes); for a parachain asset the
ledger entry must cover the amount. -/
def ensure_sufficient_balance (st : State) (who : Nat) (asset : Asset)
    (amount : Nat) : Except DexError Unit :=
  match asset with
  | .MainNetworkCurrency =>
      if st.free_balance who < amount then .error .InsufficientKsmBalance
      else .ok ()
  | .ParachainAsset asset_id =>
      if (amount : Int) ≤ st.asset_balance who asset_id then .ok ()
      else .error .InsufficientOtherAssetBalance

/-- Guard of lib.rs ensure_sufficient_balances: the two amounts are checked
independently, each against the full current balance. -/
def ensure_sufficient_balances (st : State) (who : Nat) (asset_in : Asset)
    (asset_in_amount : Nat) (asset_out : Asset) (asset_out_amount : Nat) :
    Except DexError Unit :=
  match ensure_sufficient_balance st who asset_in asset_in_amount with
  | .error e => .error e
  | .ok _ => ensure_sufficient_balance st who asset_out asset_out_amount

/-- Guard of lib.rs ensure_can_hold_balance: the checked addition on the
resulting balance; total over the unbounded naturals of this model, so it
always succeeds. -/
def ensure_can_hold_balance (_st : State) (_who : Nat) (_asset : Asset)
    (_amount : Nat) : Except DexError Unit :=
  .ok ()

/-- Guard of lib.rs ensure_can_hold_balances: both resulting balances. -/
def ensure_can_hold_balances (st : State) (who : Nat) (first_asset : Asset)
    (first_asset_amount : Nat) (second_asset : Asset)
    (second_asset_amount : Nat) : Except DexError Unit :=
  match ensure_can_hold_balance st who first_asset first_asset_amount with
  | .error e => .error e
  | .ok _ => ensure_can_hold_balance st who second_asset second_asset_amount

/-- Guard of lib.rs ensure_divest_expectations: each payout must reach the
caller minimum. -/
def ensure_divest_expectations (first_asset_cost second_asset_cost
    min_first_asset_received min_second_asset_received : Nat) :
    Except DexError Unit :=
  if first_asset_cost < min_first_asset_received then
    .error .FirstAssetAmountBelowExpectation
  else if second_asset_cost < min_second_asset_received then
    .error .SecondAssetAmountBelowExpectation
  else .ok ()

/-- Dispatchable initialize_exchange of lib.rs: canonicalize the pair with
its amounts, require both amounts positive, require the pool degenerate and
launchable, require both balances sufficient (each checked independently),
build the new pool, and only then debit the sender and store the pool.  The
result pairs the dispatch outcome (the deposited event on success) with the
storage state at return, which on every error path is the state at entry
because every check precedes every mutation. -/
def initialize_exchange (st : State) (sender : Nat) (first_asset : Asset)
    (first_asset_amount : Nat) (second_asset : Asset)
    (second_asset_amount : Nat) : Except DexError RawEvent × State :=
  let adj := adjust_assets_amount_order first_asset first_asset_amount
      second_asset second_asset_amount
  let fa := adj.1
  let fa_amount := adj.2.1
  let sa := adj.2.2.1
  let sa_amount := adj.2.2.2
  if fa_amount = 0 then (.error .LowFirstAssetAmount, st)
  else if sa_amount = 0 then (.error .LowSecondAssetAmount, st)
  else
    match ensure_exchange_not_exists st fa sa with
    | .error e => (.error e, st)
    | .ok _ =>
      match (st.getExchange fa sa).ensure_launch with
      | .error e => (.error e, st)
      | .ok _ =>
        match ensure_sufficient_balances st sender fa fa_amount sa sa_amount with
        | .error e => (.error e, st)
        | .ok _ =>
          match Exchange.initialize_new fa_amount sa_amount sender with
          | .error e => (.error e, st)
          | .ok ex_shares =>
            let st1 := slash_assets st sender fa fa_amount sa sa_amount
            let st2 := { st1 with exchanges := aset st1.exchanges (fa, sa) ex_shares.1 }
            (.ok (.Invested sender fa sa ex_shares.2), st2)

/-- Dispatchable swap_to_exact of lib.rs: validate the pair, canonicalize
it, load the active pool, check the sender balance of the input asset, price
the swap in the direction selected by the adjusted flag, enforce the caller
minimum on the output, check the resulting output balance, commit the new
pool values (recomputing the invariant), and only then debit the input from
the sender, credit the output to the sender, credit the treasury fee (when
charged) to the treasury account, and store the pool.  The receiver argument
is accepted and never used, exactly as in the source. -/
def swap_to_exact (feeNom feeDen : Nat) (st : State) (sender : Nat)
    (asset_in : Asset) (asset_in_amount : Nat) (asset_out : Asset)
    (min_asset_out_amount : Nat) (receiver : Nat) :
    Except DexError RawEvent × State :=
  match ensure_valid_exchange asset_in asset_out with
  | .error e => (.error e, st)
  | .ok _ =>
    let adj := adjust_assets_order asset_in asset_out
    let adjusted_first_asset_id := adj.1
    let adjusted_second_asset_id := adj.2.1
    let adjsuted := adj.2.2
    match ensure_exchange_exists st adjusted_first_asset_id adjusted_second_asset_id with
    | .error e => (.error e, st)
    | .ok exchange =>
      match ensure_sufficient_balance st sender asset_in asset_in_amount with
      | .error e => (.error e, st)
      | .ok _ =>
        let swap_calc : Except DexError (SwapDelta × Option (Nat × Nat)) :=
          if !adjsuted then
            match exchange.calculate_first_to_second_asset_swap feeNom feeDen
                st.dex_treasury asset_in_amount with
            | .error e => .error e
            | .ok dt =>
              match exchange.ensure_second_asset_amount dt.1.amount
                  min_asset_out_amount with
              | .error e => .error e
              | .ok _ =>
                match ensure_can_hold_balance st sender asset_out dt.1.amount with
                | .error e => .error e
                | .ok _ => .ok dt
          else
            match exchange.calculate_second_to_first_asset_swap feeNom feeDen
                st.dex_treasury asset_in_amount with
            | .error e => .error e
            | .ok dt =>
              match exchange.ensure_first_asset_amount dt.1.amount
                  min_asset_out_amount with
              | .error e => .error e
              | .ok _ =>
                match ensure_can_hold_balance st sender asset_out dt.1.amount with
                | .error e => .error e
                | .ok _ => .ok dt
        match swap_calc with
        | .error e => (.error e, st)
        | .ok dt =>
          let asset_swap_delta := dt.1
          let treasury_fee_data := dt.2
          match exchange.update_pools asset_swap_delta.first_asset_pool
              asset_swap_delta.second_asset_pool with
          | .error e => (.error e, st)
          | .ok exchange1 =>
            let st1 := slash_asset st sender asset_in asset_in_amount
            let st2 := mint_asset st1 sender asset_out asset_swap_delta.amount
            let tf_st3 : Option Nat × State :=
              match treasury_fee_data with
              | some tf_acct =>
                  (some tf_acct.1, mint_asset st2 tf_acct.2 asset_in tf_acct.1)
              | none => (none, st2)
            let st4 :=
              { tf_st3.2 with
                  exchanges :=
                    aset tf_st3.2.exchanges
                      (adjusted_first_asset_id, adjusted_second_asset_id) exchange1 }
            (.ok (.Exchanged sender asset_in asset_in_amount asset_out
                    asset_swap_delta.amount tf_st3.1), st4)

/-- Dispatchable invest_liquidity of lib.rs: canonicalize the pair, load the
active pool, price the shares with calculate_costs, check both balances
(each independently), apply invest to the pool, and only then debit the
sender and store the pool. -/
def invest_liquidity (st : State) (sender : Nat)
    (first_asset second_asset : Asset) (shares : Nat) :
    Except DexError RawEvent × State :=
  let adj := adjust_assets_order first_asset second_asset
  let fa := adj.1
  let sa := adj.2.1
  match ensure_exchange_exists st fa sa with
  | .error e => (.error e, st)
  | .ok exchange =>
    match exchange.calculate_costs shares with
    | .error e => (.error e, st)
    | .ok costs =>
      match ensure_sufficient_balances st sender fa costs.1 sa costs.2 with
      | .error e => (.error e, st)
      | .ok _ =>
        match exchange.invest costs.1 costs.2 shares sender with
        | .error e => (.error e, st)
        | .ok exchange1 =>
          let st1 := slash_assets st sender fa costs.1 sa costs.2
          let st2 := { st1 with exchanges := aset st1.exchanges (fa, sa) exchange1 }
          (.ok (.Invested sender fa sa shares), st2)

/-- Dispatchable divest_liquidity of lib.rs: canonicalize the pair, load the
active pool, require the sender to own the burned shares, price them with
calculate_costs, enforce the caller minimums, check that the payouts can be
held, apply divest to the pool, and only then credit the sender and store
the pool. -/
def divest_liquidity (st : State) (sender : Nat)
    (first_asset second_asset : Asset) (shares_burned : Nat)
    (min_first_asset_received min_second_asset_received : Nat) :
    Except DexError RawEvent × State :=
  let adj := adjust_assets_order first_asset second_asset
  let fa := adj.1
  let sa := adj.2.1
  match ensure_exchange_exists st fa sa with
  | .error e => (.error e, st)
  | .ok exchange =>
    match exchange.ensure_burned_shares sender shares_burned with
    | .error e => (.error e, st)
    | .ok _ =>
      match exchange.calculate_costs shares_burned with
      | .error e => (.error e, st)
      | .ok costs =>
        match ensure_divest_expectations costs.1 costs.2
            min_first_asset_received min_second_asset_received with
        | .error e => (.error e, st)
        | .ok _ =>
          match ensure_can_hold_balances st sender fa costs.1 sa costs.2 with
          | .error e => (.error e, st)
          | .ok _ =>
            match exchange.divest costs.1 costs.2 shares_burned sender with
            | .error e => (.error e, st)
            | .ok exchange1 =>
              let st1 := mint_assets st sender fa costs.1 sa costs.2
              let st2 := { st1 with exchanges := aset st1.exchanges (fa, sa) exchange1 }
              (.ok (.Divested sender fa sa shares_burned), st2)

/-- Message enum of dex-xcmp lib.rs (the generic account, balance and asset
id parameters instantiated by naturals). -/
inductive XCMPMessage where
  | TransferToken (dest amount : Nat)
  | TransferAsset (dest amount para_asset_id : Nat)
  deriving DecidableEq, Repr

/-- Event enum of dex-xcmp lib.rs, restricted to the inbound XCMP events. -/
inductive XcmpEvent where
  | TransferredTokensViaXCMP (src dest amount : Nat)
  | TransferredAssetViaXCMP (src para_asset_id dest internal_asset_id amount : Nat)
  deriving DecidableEq, Repr

/-- Storage of dex-xcmp lib.rs: the AssetIdByParaAssetId double map (keyed
by source parachain and parachain asset id; modelled as an association list
so that the contains_key test of the source is the lookup being some), the
NextAssetId counter, and the dex pallet storage the handler credits into. -/
structure XcmpState where
  asset_id_by_para_asset_id : List ((Nat × Nat) × Nat)
  next_asset_id : Nat
  dex : State
  deriving DecidableEq, Repr

/-- Handler handle_xcmp_message of dex-xcmp lib.rs.  TransferToken credits
the KSM asset (a constant of the runtime configuration, here a parameter).
TransferAsset with a registered (source, parachain asset id) pair credits
the registered internal asset id and changes no registration state; an
unregistered pair is registered at the current NextAssetId, the amount is
credited under that id, and NextAssetId is incremented by one.  The phase
one ensure_can_hold_balance calls of the source always succeed over the
unbounded naturals of this model. -/
def handle_xcmp_message (ksmAsset : Asset) (st : XcmpState) (src : Nat)
    (msg : XCMPMessage) : XcmpState × XcmpEvent :=
  match msg with
  | .TransferToken dest amount =>
      ({ st with dex := mint_asset st.dex dest ksmAsset amount },
       .TransferredTokensViaXCMP src dest amount)
  | .TransferAsset dest amount para_asset_id =>
      match alookup st.asset_id_by_para_asset_id (src, para_asset_id) with
      | some asset_id =>
          ({ st with dex := mint_asset st.dex dest (.ParachainAsset asset_id) amount },
           .TransferredAssetViaXCMP src para_asset_id dest asset_id amount)
      | none =>
          let next_asset_id := st.next_asset_id
          ({ st with
              asset_id_by_para_asset_id :=
                aset st.asset_id_by_para_asset_id (src, para_asset_id) next_asset_id
              dex := mint_asset st.dex dest (.ParachainAsset next_asset_id) amount
              next_asset_id := next_asset_id + 1 },
           .TransferredAssetViaXCMP src para_asset_id dest next_asset_id amount)

/-- Boolean rendering of the asset ordering as the spec words it: the native
currency before every parachain asset, parachain assets by numeric id. -/
def asset_lt (a b : Asset) : Bool :=
  match a, b with
  | .MainNetworkCurrency, .ParachainAsset _ => true
  | .ParachainAsset i, .ParachainAsset j => i < j
  | _, _ => false

/-- Concrete treasury configuration for the worked examples: treasury
account 9, one third of the swap fee. -/
def trC : DexTreasury :=
  { dex_account := 9, treasury_fee_rate_nominator := 1
    treasury_fee_rate_denominator := 3 }

/-- Concrete active pool for the worked examples: reserves 1000 and 2000,
the invariant their product, a thousand shares owned by account 7. -/
def exC : Exchange :=
  { first_asset_pool := 1000, second_asset_pool := 2000, invariant := 2000000
    total_shares := 1000, shares := [(7, 1000)] }

/-- Concrete storage for the worked examples: the pool exC for the pair of
the native currency and parachain asset 1, account 7 holding 500 of
parachain asset 1 and 1000 native. -/
def stC : State :=
  { exchanges := [((Asset.MainNetworkCurrency, Asset.ParachainAsset 1), exC)]
    asset_balances := [((7, 1), 500)]
    native_balances := [(7, 1000)]
    dex_treasury := trC }

/-- Concrete storage for the same-asset-pair failing input: no pools,
account 7 holding 100 of parachain asset 1, treasury disabled. -/
def stC4 : State :=
  { exchanges := []
    asset_balances := [((7, 1), 100)]
    native_balances := []
    dex_treasury :=
      { dex_account := 9, treasury_fee_rate_nominator := 0
        treasury_fee_rate_denominator := 0 } }

/-- Concrete pool with an inexact share ratio: reserves 10 and 10 over 3
total shares, all owned by account 7. -/
def exC5 : Exchange :=
  { first_asset_pool := 10, second_asset_pool := 10, invariant := 100
    total_shares := 3, shares := [(7, 3)] }

/-- Concrete storage around exC5: account 7 holding 100 of parachain asset
1 and 100 native, treasury disabled. -/
def stC5 : State :=
  { exchanges := [((Asset.MainNetworkCurrency, Asset.ParachainAsset 1), exC5)]
    asset_balances := [((7, 1), 100)]
    native_balances := [(7, 100)]
    dex_treasury :=
      { dex_account := 9, treasury_fee_rate_nominator := 0
        treasury_fee_rate_denominator := 0 } }

/-- Concrete storage with no pools for the initialize example: account 7
holding 2000 of parachain asset 1 and 1000 native. -/
def stInit : State :=
  { exchanges := []
    asset_balances := [((7, 1), 2000)]
    native_balances := [(7, 1000)]
    dex_treasury := trC }

/-- Concrete bridging storage: no registrations, NextAssetId 5, empty dex
storage around stC4. -/
def stX : XcmpState :=
  { asset_id_by_para_asset_id := []
    next_asset_id := 5
    dex := stC4 }

theorem alookup_aset_self {α β : Type} [DecidableEq α] (m : List (α × β))
    (k : α) (v : β) : alookup (aset m k v) k = some v := by
  induction m with
  | nil => simp [aset, alookup]
  | cons p rest ih =>
      obtain ⟨k1, v1⟩ := p
      by_cases h : k1 = k
      · simp [aset, alookup, h]
      · simp [aset, alookup, h, ih]

theorem alookup_aset_other {α β : Type} [DecidableEq α] (m : List (α × β))
    (k k2 : α) (v : β) (hne : k ≠ k2) :
    alookup (aset m k v) k2 = alookup m k2 := by
  induction m with
  | nil => simp [aset, alookup, hne]
  | cons p rest ih =>
      obtain ⟨k1, v1⟩ := p
      by_cases h : k1 = k
      · subst h
        simp [aset, alookup, hne]
      · simp only [aset, if_neg h]
        by_cases h2 : k1 = k2
        · simp [alookup, h2]
        · simp [alookup, h2, ih]

theorem slash_asset_dex_treasury (st : State) (who : Nat) (asset : Asset)
    (amt : Nat) : (slash_asset st who asset amt).dex_treasury = st.dex_treasury := by
  cases asset <;> rfl

theorem mint_asset_dex_treasury (st : State) (dest : Nat) (asset : Asset)
    (amt : Nat) : (mint_asset st dest asset amt).dex_treasury = st.dex_treasury := by
  cases asset with
  | MainNetworkCurrency => rfl
  | ParachainAsset asset_id =>
      simp only [mint_asset]
      split <;> rfl

theorem slash_assets_dex_treasury (st : State) (who : Nat) (a1 : Asset)
    (x : Nat) (a2 : Asset) (y : Nat) :
    (slash_assets st who a1 x a2 y).dex_treasury = st.dex_treasury := by
  simp [slash_assets, slash_asset_dex_treasury]

theorem mint_assets_dex_treasury (st : State) (dest : Nat) (a1 : Asset)
    (x : Nat) (a2 : Asset) (y : Nat) :
    (mint_assets st dest a1 x a2 y).dex_treasury = st.dex_treasury := by
  simp [mint_assets, mint_asset_dex_treasury]

theorem slash_asset_exchanges (st : State) (who : Nat) (asset : Asset)
    (amt : Nat) : (slash_asset st who asset amt).exchanges = st.exchanges := by
  cases asset <;> rfl

theorem mint_asset_exchanges (st : State) (dest : Nat) (asset : Asset)
    (amt : Nat) : (mint_asset st dest asset amt).exchanges = st.exchanges := by
  cases asset with
  | MainNetworkCurrency => rfl
  | ParachainAsset asset_id =>
      simp only [mint_asset]
      split <;> rfl

theorem slash_assets_exchanges (st : State) (who : Nat) (a1 : Asset)
    (x : Nat) (a2 : Asset) (y : Nat) :
    (slash_assets st who a1 x a2 y).exchanges = st.exchanges := by
  simp [slash_assets, slash_asset_exchanges]

theorem mint_assets_exchanges (st : State) (dest : Nat) (a1 : Asset)
    (x : Nat) (a2 : Asset) (y : Nat) :
    (mint_assets st dest a1 x a2 y).exchanges = st.exchanges := by
  simp [mint_assets, mint_asset_exchanges]

theorem ensure_exchange_exists_ok (st : State) (a b : Asset) (ex : Exchange)
    (hok : ensure_exchange_exists st a b = .ok ex) :
    ex = st.getExchange a b ∧ 0 < ex.invariant := by
  have hok2 : (if 0 < (st.getExchange a b).invariant then
      (Except.ok (st.getExchange a b) : Except DexError Exchange)
    else .error .ExchangeNotExists) = .ok ex := hok
  split at hok2 <;> simp_all

theorem update_pools_ok (e : Exchange) (p1 p2 : Nat) (e1 : Exchange)
    (h : e.update_pools p1 p2 = .ok e1) :
    e1.first_asset_pool = p1 ∧ e1.second_asset_pool = p2 ∧
    e1.invariant = p1 * p2 ∧ e.invariant ≤ p1 * p2 := by
  unfold Exchange.update_pools at h
  split at h
  · simp_all
  · cases h
    refine ⟨rfl, rfl, rfl, ?_⟩
    omega

theorem ensure_valid_exchange_ne (a b : Asset)
    (h : ensure_valid_exchange a b = .ok ()) : a ≠ b := by
  cases a <;> cases b <;> simp_all [ensure_valid_exchange]

/-- C7 counterexample: the claim asserts opposite swapped flags for every
pair of assets, but at the pair of the main network currency with itself
both call orders return the flag false, so the flags are equal, not
opposite. -/
theorem C7_counterexample :
    ¬ ((adjust_assets_order Asset.MainNetworkCurrency Asset.MainNetworkCurrency).2.2 =
        !(adjust_assets_order Asset.MainNetworkCurrency
            Asset.MainNetworkCurrency).2.2) := by
  decide

/-- C7 (amended): pair canonicalization is pure and total; on a pair of two
equal assets both call orders return the pair unchanged with the swapped
flag false, and for every pair of distinct assets the two call orders agree
on the canonical (low, high) pair, return opposite swapped flags, and the
canonical pair is ordered with the native currency before every parachain
asset and parachain assets by numeric id. -/
theorem C7_canonicalization (a b : Asset) :
    adjust_assets_order a a = (a, a, false) ∧
    (a ≠ b →
      (adjust_assets_order a b).1 = (adjust_assets_order b a).1 ∧
      (adjust_assets_order a b).2.1 = (adjust_assets_order b a).2.1 ∧
      (adjust_assets_order a b).2.2 = !(adjust_assets_order b a).2.2 ∧
      asset_lt (adjust_assets_order a b).1 (adjust_assets_order a b).2.1 = true) := by
  constructor
  · cases a <;> simp [adjust_assets_order]
  · intro hne
    cases a with
    | MainNetworkCurrency =>
        cases b with
        | MainNetworkCurrency => simp_all
        | ParachainAsset j => simp [adjust_assets_order, asset_lt]
    | ParachainAsset i =>
        cases b with
        | MainNetworkCurrency => simp [adjust_assets_order, asset_lt]
        | ParachainAsset j =>
            have hij : i ≠ j := fun h => hne (by rw [h])
            rcases Nat.lt_or_ge i j with h | h
            · have h1 : ¬ i > j := by omega
              have h2 : j > i := h
              simp [adjust_assets_order, asset_lt, h1, h2, h]
            · have h2 : i > j := by omega
              have h1 : ¬ j > i := by omega
              simp [adjust_assets_order, asset_lt, h1, h2]

/-- C7 witness: the amended claim applied to the distinct pair of the native
currency and parachain asset 0. -/
theorem C7_canonicalization_witness :
    Asset.MainNetworkCurrency ≠ Asset.ParachainAsset 0 ∧
    ((adjust_assets_order Asset.MainNetworkCurrency (Asset.ParachainAsset 0)).1 =
       (adjust_assets_order (Asset.ParachainAsset 0) Asset.MainNetworkCurrency).1 ∧
     (adjust_assets_order Asset.MainNetworkCurrency (Asset.ParachainAsset 0)).2.1 =
       (adjust_assets_order (Asset.ParachainAsset 0) Asset.MainNetworkCurrency).2.1 ∧
     (adjust_assets_order Asset.MainNetworkCurrency (Asset.ParachainAsset 0)).2.2 =
       !(adjust_assets_order (Asset.ParachainAsset 0) Asset.MainNetworkCurrency).2.2 ∧
     asset_lt (adjust_assets_order Asset.MainNetworkCurrency (Asset.ParachainAsset 0)).1
       (adjust_assets_order Asset.MainNetworkCurrency (Asset.ParachainAsset 0)).2.1 = true) :=
  ⟨by decide, (C7_canonicalization Asset.MainNetworkCurrency
      (Asset.ParachainAsset 0)).2 (by decide)⟩

/-- C4: evaluation of the code at the failing input.  Account 7 holds 100 of
parachain asset 1; initialize_exchange for the pair of parachain asset 1
with itself and amounts 60 and 60 passes every validation (the two debits
are checked independently against the same balance of 100) and commits,
leaving the ledger entry at minus 20 — a negative balance the claim says
can never arise. -/
theorem C4_failing_input :
    stC4.asset_balance 7 1 = 100 ∧
    ensure_sufficient_balances stC4 7 (Asset.ParachainAsset 1) 60
      (Asset.ParachainAsset 1) 60 = .ok () ∧
    (initialize_exchange stC4 7 (Asset.ParachainAsset 1) 60
        (Asset.ParachainAsset 1) 60).1 =
      .ok (.Invested 7 (Asset.ParachainAsset 1) (Asset.ParachainAsset 1) 60) ∧
    (initialize_exchange stC4 7 (Asset.ParachainAsset 1) 60
        (Asset.ParachainAsset 1) 60).2.asset_balance 7 1 = -20 := by
  decide

/-- C5 counterexample: at pool exC5 (both reserves 10, three total shares)
pricing one share, the per-side cost is the floor 3 and investing charges
exactly 3 per side, not the ceiling 4 the claim states for investing, while
divesting one share pays out the same 3 per side; the ceiling and the floor
differ at this input, and the single shared cost function produces the
floor for both directions. -/
theorem C5_counterexample :
    Exchange.calculate_costs exC5 1 = .ok (3, 3) ∧
    (1 * 10 + 3 - 1) / 3 = 4 ∧
    (invest_liquidity stC5 7 Asset.MainNetworkCurrency (Asset.ParachainAsset 1) 1).1 =
      .ok (.Invested 7 Asset.MainNetworkCurrency (Asset.ParachainAsset 1) 1) ∧
    (invest_liquidity stC5 7 Asset.MainNetworkCurrency
        (Asset.ParachainAsset 1) 1).2.free_balance 7 = 97 ∧
    (divest_liquidity stC5 7 Asset.MainNetworkCurrency
        (Asset.ParachainAsset 1) 1 0 0).1 =
      .ok (.Divested 7 Asset.MainNetworkCurrency (Asset.ParachainAsset 1) 1) ∧
    (divest_liquidity stC5 7 Asset.MainNetworkCurrency
        (Asset.ParachainAsset 1) 1 0 0).2.free_balance 7 = 103 ∧
    (3 : Nat) ≠ 4 := by
  decide

/-- C5 (amended): invest and divest price shares through the one shared
calculate_costs, which for a pool with nonzero total shares returns the
floor of shares times reserve over total shares on each side, and fails
with TotalSharesNotNull when the total shares are zero. -/
theorem C5_costs_uniform_floor (e : Exchange) (shares : Nat) :
    (e.total_shares = 0 →
      e.calculate_costs shares = .error .TotalSharesNotNull) ∧
    (e.total_shares ≠ 0 →
      e.calculate_costs shares =
        .ok (shares * e.first_asset_pool / e.total_shares,
             shares * e.second_asset_pool / e.total_shares)) := by
  unfold Exchange.calculate_costs
  constructor <;> intro h <;> simp [h]

/-- C5 witness: the amended cost formula applied to pool exC5 with one
share, and the zero-shares failure applied to the degenerate pool. -/
theorem C5_costs_uniform_floor_witness :
    exC5.total_shares ≠ 0 ∧
    Exchange.calculate_costs exC5 1 =
      .ok (1 * exC5.first_asset_pool / exC5.total_shares,
           1 * exC5.second_asset_pool / exC5.total_shares) ∧
    defaultExchange.total_shares = 0 ∧
    Exchange.calculate_costs defaultExchange 1 = .error .TotalSharesNotNull :=
  ⟨by decide, (C5_costs_uniform_floor exC5 1).2 (by decide), by decide,
   (C5_costs_uniform_floor defaultExchange 1).1 (by decide)⟩

/-- C10: a TransferAsset message for an unregistered (source parachain,
parachain asset id) pair registers the mapping at the current NextAssetId,
mints the amount to the destination under that internal id, and increments
NextAssetId by exactly one; for a registered pair it mints under the
registered internal id and leaves the registration map and NextAssetId
unchanged; in particular a second TransferAsset from the same pair after a
first registering one mints under the id registered by the first and leaves
NextAssetId unchanged. -/
theorem C10_asset_registration (ksm : Asset) (st : XcmpState)
    (src dest amount pid aid d2 a2 : Nat) :
    (alookup st.asset_id_by_para_asset_id (src, pid) = none →
      handle_xcmp_message ksm st src (.TransferAsset dest amount pid) =
        ({ st with
            asset_id_by_para_asset_id :=
              aset st.asset_id_by_para_asset_id (src, pid) st.next_asset_id
            dex := mint_asset st.dex dest (.ParachainAsset st.next_asset_id) amount
            next_asset_id := st.next_asset_id + 1 },
         .TransferredAssetViaXCMP src pid dest st.next_asset_id amount)) ∧
    (alookup st.asset_id_by_para_asset_id (src, pid) = some aid →
      handle_xcmp_message ksm st src (.TransferAsset dest amount pid) =
        ({ st with dex := mint_asset st.dex dest (.ParachainAsset aid) amount },
         .TransferredAssetViaXCMP src pid dest aid amount)) ∧
    (alookup st.asset_id_by_para_asset_id (src, pid) = none →
      handle_xcmp_message ksm
          (handle_xcmp_message ksm st src (.TransferAsset dest amount pid)).1
          src (.TransferAsset d2 a2 pid) =
        ({ (handle_xcmp_message ksm st src (.TransferAsset dest amount pid)).1 with
            dex := mint_asset
                (handle_xcmp_message ksm st src (.TransferAsset dest amount pid)).1.dex
                d2 (.ParachainAsset st.next_asset_id) a2 },
         .TransferredAssetViaXCMP src pid d2 st.next_asset_id a2) ∧
      (handle_xcmp_message ksm
          (handle_xcmp_message ksm st src (.TransferAsset dest amount pid)).1
          src (.TransferAsset d2 a2 pid)).1.next_asset_id =
        (handle_xcmp_message ksm st src
          (.TransferAsset dest amount pid)).1.next_asset_id) := by
  refine ⟨?_, ?_, ?_⟩
  · intro h
    simp [handle_xcmp_message, h]
  · intro h
    simp [handle_xcmp_message, h]
  · intro h
    constructor
    · simp [handle_xcmp_message, h, alookup_aset_self]
    · simp [handle_xcmp_message, h, alookup_aset_self]

/-- C10 witness: the registration behavior at the concrete bridging storage
stX (no registrations, NextAssetId 5): a first transfer from parachain 3 of
its asset 11 registers internal id 5 and bumps NextAssetId to 6, and a
second transfer mints under internal id 5 with NextAssetId unchanged. -/
theorem C10_asset_registration_witness :
    alookup stX.asset_id_by_para_asset_id (3, 11) = none ∧
    handle_xcmp_message Asset.MainNetworkCurrency stX 3 (.TransferAsset 8 40 11) =
      ({ stX with
          asset_id_by_para_asset_id :=
            aset stX.asset_id_by_para_asset_id (3, 11) stX.next_asset_id
          dex := mint_asset stX.dex 8 (.ParachainAsset stX.next_asset_id) 40
          next_asset_id := stX.next_asset_id + 1 },
       .TransferredAssetViaXCMP 3 11 8 stX.next_asset_id 40) ∧
    (handle_xcmp_message Asset.MainNetworkCurrency
        (handle_xcmp_message Asset.MainNetworkCurrency stX 3
          (.TransferAsset 8 40 11)).1
        3 (.TransferAsset 8 7 11)).1.next_asset_id =
      (handle_xcmp_message Asset.MainNetworkCurrency stX 3
        (.TransferAsset 8 40 11)).1.next_asset_id :=
  ⟨by decide,
   (C10_asset_registration Asset.MainNetworkCurrency stX 3 8 40 11 0 8 7).1 (by decide),
   ((C10_asset_registration Asset.MainNetworkCurrency stX 3 8 40 11 0 8 7).2.2
      (by decide)).2⟩

/-- C1: on an active pool with a positive input amount, a successful swap
computation returns exactly the constant product formulas of the spec, in
both directions with the roles of the reserves swapped: with fee_total the
floor of amt_in times the fee rate, amt_in_net = amt_in - fee_total, and
treasury_fee the floor of fee_total times the treasury rate, the output is
the floor of amt_in_net times the output reserve over the input reserve
plus amt_in_net, the new input side reserve is the input reserve plus
amt_in minus treasury_fee, and the new output side reserve is the output
reserve minus the output. -/
theorem C1_swap_formula (e : Exchange) (feeNom feeDen : Nat) (tr : DexTreasury)
    (amt_in : Nat) (delta1 delta2 : SwapDelta) (tfd1 tfd2 : Option (Nat × Nat))
    (hact : 0 < e.invariant) (hpos : 0 < amt_in) :
    (e.calculate_first_to_second_asset_swap feeNom feeDen tr amt_in = .ok (delta1, tfd1) →
      delta1.amount = (amt_in - amt_in * feeNom / feeDen) * e.second_asset_pool /
          (e.first_asset_pool + (amt_in - amt_in * feeNom / feeDen)) ∧
      delta1.first_asset_pool = e.first_asset_pool + amt_in -
          amt_in * feeNom / feeDen * tr.treasury_fee_rate_nominator /
            tr.treasury_fee_rate_denominator ∧
      delta1.second_asset_pool = e.second_asset_pool - delta1.amount ∧
      (tr.treasury_fee_rate_denominator ≠ 0 →
        tfd1 = some (amt_in * feeNom / feeDen * tr.treasury_fee_rate_nominator /
            tr.treasury_fee_rate_denominator, tr.dex_account))) ∧
    (e.calculate_second_to_first_asset_swap feeNom feeDen tr amt_in = .ok (delta2, tfd2) →
      delta2.amount = (amt_in - amt_in * feeNom / feeDen) * e.first_asset_pool /
          (e.second_asset_pool + (amt_in - amt_in * feeNom / feeDen)) ∧
      delta2.second_asset_pool = e.second_asset_pool + amt_in -
          amt_in * feeNom / feeDen * tr.treasury_fee_rate_nominator /
            tr.treasury_fee_rate_denominator ∧
      delta2.first_asset_pool = e.first_asset_pool - delta2.amount ∧
      (tr.treasury_fee_rate_denominator ≠ 0 →
        tfd2 = some (amt_in * feeNom / feeDen * tr.treasury_fee_rate_nominator /
            tr.treasury_fee_rate_denominator, tr.dex_account))) := by
  constructor
  · intro h
    simp only [Exchange.calculate_first_to_second_asset_swap] at h
    by_cases hd : tr.treasury_fee_rate_denominator = 0
    · simp only [hd, if_true, eq_self_iff_true, if_pos] at h
      split at h
      · simp at h
      · split at h
        · simp at h
        · split at h
          · simp at h
          · simp only [Option.map, Option.getD] at h
            split at h
            · simp at h
            · simp only [Except.ok.injEq, Prod.mk.injEq] at h
              obtain ⟨h1, h3⟩ := h
              subst h1
              refine ⟨rfl, ?_, rfl, fun hden => absurd hd hden⟩
              rw [hd]
              simp
    · simp only [hd, if_false, if_neg hd] at h
      split at h
      · simp at h
      · split at h
        · simp at h
        · split at h
          · simp at h
          · simp only [Option.map, Option.getD] at h
            split at h
            · simp at h
            · simp only [Except.ok.injEq, Prod.mk.injEq] at h
              obtain ⟨h1, h3⟩ := h
              subst h1
              subst h3
              exact ⟨rfl, rfl, rfl, fun _ => rfl⟩
  · intro h
    simp only [Exchange.calculate_second_to_first_asset_swap] at h
    by_cases hd : tr.treasury_fee_rate_denominator = 0
    · simp only [hd, if_true, eq_self_iff_true, if_pos] at h
      split at h
      · simp at h
      · split at h
        · simp at h
        · split at h
          · simp at h
          · simp only [Option.map, Option.getD] at h
            split at h
            · simp at h
            · simp only [Except.ok.injEq, Prod.mk.injEq] at h
              obtain ⟨h1, h3⟩ := h
              subst h1
              refine ⟨rfl, ?_, rfl, fun hden => absurd hd hden⟩
              rw [hd]
              simp
    · simp only [hd, if_false, if_neg hd] at h
      split at h
      · simp at h
      · split at h
        · simp at h
        · split at h
          · simp at h
          · simp only [Option.map, Option.getD] at h
            split at h
            · simp at h
            · simp only [Except.ok.injEq, Prod.mk.injEq] at h
              obtain ⟨h1, h3⟩ := h
              subst h1
              subst h3
              exact ⟨rfl, rfl, rfl, fun _ => rfl⟩

/-- C1 witness: the formulas applied to the concrete pool exC (reserves
1000 and 2000) with fee rate 3 over 1000, treasury rate 1 over 3 to account
9, and input 1000: fee 3, net input 997, output 998 in the low-to-high
direction (332 in the high-to-low direction), treasury fee 1, new reserves
(1999, 1002) and (668, 2999) respectively. -/
theorem C1_swap_formula_witness :
    0 < exC.invariant ∧ 0 < (1000 : Nat) ∧
    exC.calculate_first_to_second_asset_swap 3 1000 trC 1000 =
      .ok (⟨998, 1999, 1002⟩, some (1, 9)) ∧
    exC.calculate_second_to_first_asset_swap 3 1000 trC 1000 =
      .ok (⟨332, 668, 2999⟩, some (1, 9)) ∧
    (⟨998, 1999, 1002⟩ : SwapDelta).amount =
      (1000 - 1000 * 3 / 1000) * exC.second_asset_pool /
        (exC.first_asset_pool + (1000 - 1000 * 3 / 1000)) ∧
    (⟨332, 668, 2999⟩ : SwapDelta).amount =
      (1000 - 1000 * 3 / 1000) * exC.first_asset_pool /
        (exC.second_asset_pool + (1000 - 1000 * 3 / 1000)) :=
  ⟨by decide, by decide, by decide, by decide,
   ((C1_swap_formula exC 3 1000 trC 1000 ⟨998, 1999, 1002⟩ ⟨332, 668, 2999⟩
       (some (1, 9)) (some (1, 9)) (by decide) (by decide)).1 (by decide)).1,
   ((C1_swap_formula exC 3 1000 trC 1000 ⟨998, 1999, 1002⟩ ⟨332, 668, 2999⟩
       (some (1, 9)) (some (1, 9)) (by decide) (by decide)).2 (by decide)).1⟩

/-- C8: every public operation, whether it succeeds or fails, leaves the
treasury configuration (account and fee rate fraction) of the storage
unchanged. -/
theorem C8_treasury_read_only (feeNom feeDen : Nat) (st : State) (sender : Nat)
    (a1 a2 : Asset) (x y z r : Nat) :
    (initialize_exchange st sender a1 x a2 y).2.dex_treasury = st.dex_treasury ∧
    (swap_to_exact feeNom feeDen st sender a1 x a2 y r).2.dex_treasury =
      st.dex_treasury ∧
    (invest_liquidity st sender a1 a2 x).2.dex_treasury = st.dex_treasury ∧
    (divest_liquidity st sender a1 a2 x y z).2.dex_treasury = st.dex_treasury := by
  refine ⟨?_, ?_, ?_, ?_⟩
  · unfold initialize_exchange
    dsimp only
    repeat' split
    all_goals
      simp [slash_assets_dex_treasury, slash_asset_dex_treasury,
        mint_assets_dex_treasury, mint_asset_dex_treasury]
  · unfold swap_to_exact
    dsimp only
    repeat' split
    all_goals
      simp [slash_assets_dex_treasury, slash_asset_dex_treasury,
        mint_assets_dex_treasury, mint_asset_dex_treasury]
  · unfold invest_liquidity
    dsimp only
    repeat' split
    all_goals
      simp [slash_assets_dex_treasury, slash_asset_dex_treasury,
        mint_assets_dex_treasury, mint_asset_dex_treasury]
  · unfold divest_liquidity
    dsimp only
    repeat' split
    all_goals
      simp [slash_assets_dex_treasury, slash_asset_dex_treasury,
        mint_assets_dex_treasury, mint_asset_dex_treasury]

/-- C3: every public operation that returns an error leaves the pool
registry and all balances exactly as they were (every check precedes every
mutation), and in particular a swap whose computed output is below the
caller minimum fails with the expectation error of the output side and
mutates nothing. -/
theorem C3_error_no_mutation (feeNom feeDen : Nat) (st : State) (sender : Nat)
    (a1 a2 : Asset) (x y z r : Nat) (err : DexError) (ex : Exchange)
    (delta : SwapDelta) (tfd : Option (Nat × Nat)) :
    ((initialize_exchange st sender a1 x a2 y).1 = .error err →
      (initialize_exchange st sender a1 x a2 y).2 = st) ∧
    ((swap_to_exact feeNom feeDen st sender a1 x a2 y r).1 = .error err →
      (swap_to_exact feeNom feeDen st sender a1 x a2 y r).2 = st) ∧
    ((invest_liquidity st sender a1 a2 x).1 = .error err →
      (invest_liquidity st sender a1 a2 x).2 = st) ∧
    ((divest_liquidity st sender a1 a2 x y z).1 = .error err →
      (divest_liquidity st sender a1 a2 x y z).2 = st) ∧
    (ensure_valid_exchange a1 a2 = .ok () →
      ensure_exchange_exists st (adjust_assets_order a1 a2).1
        (adjust_assets_order a1 a2).2.1 = .ok ex →
      ensure_sufficient_balance st sender a1 x = .ok () →
      (if !(adjust_assets_order a1 a2).2.2 then
          ex.calculate_first_to_second_asset_swap feeNom feeDen st.dex_treasury x
        else
          ex.calculate_second_to_first_asset_swap feeNom feeDen st.dex_treasury x) =
        .ok (delta, tfd) →
      delta.amount < y →
      swap_to_exact feeNom feeDen st sender a1 x a2 y r =
        (.error (if !(adjust_assets_order a1 a2).2.2 then
            DexError.SecondAssetAmountBelowExpectation
          else DexError.FirstAssetAmountBelowExpectation), st)) := by
  refine ⟨?_, ?_, ?_, ?_, ?_⟩
  · intro h
    unfold initialize_exchange at h ⊢
    dsimp only at h ⊢
    repeat' split at h
    all_goals simp_all
  · intro h
    unfold swap_to_exact at h ⊢
    dsimp only at h ⊢
    repeat' split at h
    all_goals simp_all
  · intro h
    unfold invest_liquidity at h ⊢
    dsimp only at h ⊢
    repeat' split at h
    all_goals simp_all
  · intro h
    unfold divest_liquidity at h ⊢
    dsimp only at h ⊢
    repeat' split at h
    all_goals simp_all
  · intro hvalid hex hbal hcalc hlt
    unfold swap_to_exact
    dsimp only
    cases hb : (adjust_assets_order a1 a2).2.2 with
    | false =>
        rw [hb] at hcalc
        simp at hcalc
        simp [hvalid, hex, hbal, hb, hcalc,
          Exchange.ensure_second_asset_amount, hlt]
    | true =>
        rw [hb] at hcalc
        simp at hcalc
        simp [hvalid, hex, hbal, hb, hcalc,
          Exchange.ensure_first_asset_amount, hlt]

/-- C2: a successful swap never decreases the product of the two reserves
of the pool it touches (for a state whose stored invariant equals that
product, as every committed pool maintains), and a pool commit whose
recomputed reserve product is below the stored invariant fails instead of
committing. -/
theorem C2_invariant_monotonic (feeNom feeDen : Nat) (st : State) (sender : Nat)
    (a1 a2 : Asset) (x y r : Nat) (ev : RawEvent) (e : Exchange) (p1 p2 : Nat) :
    ((swap_to_exact feeNom feeDen st sender a1 x a2 y r).1 = .ok ev →
      (st.getExchange (adjust_assets_order a1 a2).1
          (adjust_assets_order a1 a2).2.1).invariant =
        (st.getExchange (adjust_assets_order a1 a2).1
            (adjust_assets_order a1 a2).2.1).first_asset_pool *
          (st.getExchange (adjust_assets_order a1 a2).1
              (adjust_assets_order a1 a2).2.1).second_asset_pool →
      (st.getExchange (adjust_assets_order a1 a2).1
          (adjust_assets_order a1 a2).2.1).first_asset_pool *
        (st.getExchange (adjust_assets_order a1 a2).1
            (adjust_assets_order a1 a2).2.1).second_asset_pool ≤
      (((swap_to_exact feeNom feeDen st sender a1 x a2 y r).2).getExchange
          (adjust_assets_order a1 a2).1
          (adjust_assets_order a1 a2).2.1).first_asset_pool *
        (((swap_to_exact feeNom feeDen st sender a1 x a2 y r).2).getExchange
            (adjust_assets_order a1 a2).1
            (adjust_assets_order a1 a2).2.1).second_asset_pool) ∧
    (p1 * p2 < e.invariant → e.update_pools p1 p2 = .error .InvalidExchange) := by
  constructor
  · intro hok hcons
    unfold swap_to_exact at hok ⊢
    dsimp only at hok ⊢
    split at hok
    · simp at hok
    · split at hok
      · simp at hok
      · split at hok
        · simp at hok
        · split at hok
          · simp at hok
          · split at hok
            · simp at hok
            · rename_i xv av hvalid xe exch hex xb ab hbal xsc dt hcalc xup ex1 hupd
              simp only [hvalid, hex, hbal, hcalc, hupd]
              simp only [State.getExchange, alookup_aset_self, Option.getD]
              obtain ⟨h1, h2, h3, h4⟩ := update_pools_ok exch dt.1.first_asset_pool
                dt.1.second_asset_pool ex1 hupd
              obtain ⟨hexeq, hexpos⟩ := ensure_exchange_exists_ok st
                (adjust_assets_order a1 a2).1 (adjust_assets_order a1 a2).2.1 exch hex
              rw [h1, h2]
              rw [hexeq] at h4
              rw [hcons] at h4
              exact h4
  · intro hlt
    unfold Exchange.update_pools
    simp [hlt]

/-- C2 witness: the concrete swap of 1000 native into the pool exC of stC
succeeds, the reserve product grows from 2000000 to 1999 times 1002, and a
commit of pool values (1, 1) against exC fails closed. -/
theorem C2_invariant_monotonic_witness :
    (swap_to_exact 3 1000 stC 7 Asset.MainNetworkCurrency 1000
        (Asset.ParachainAsset 1) 0 0).1 =
      .ok (.Exchanged 7 Asset.MainNetworkCurrency 1000 (Asset.ParachainAsset 1)
        998 (some 1)) ∧
    stC.getExchange Asset.MainNetworkCurrency (Asset.ParachainAsset 1) = exC ∧
    (stC.getExchange (adjust_assets_order Asset.MainNetworkCurrency
          (Asset.ParachainAsset 1)).1
        (adjust_assets_order Asset.MainNetworkCurrency
          (Asset.ParachainAsset 1)).2.1).first_asset_pool *
      (stC.getExchange (adjust_assets_order Asset.MainNetworkCurrency
            (Asset.ParachainAsset 1)).1
          (adjust_assets_order Asset.MainNetworkCurrency
            (Asset.ParachainAsset 1)).2.1).second_asset_pool ≤
    (((swap_to_exact 3 1000 stC 7 Asset.MainNetworkCurrency 1000
          (Asset.ParachainAsset 1) 0 0).2).getExchange
        (adjust_assets_order Asset.MainNetworkCurrency
          (Asset.ParachainAsset 1)).1
        (adjust_assets_order Asset.MainNetworkCurrency
          (Asset.ParachainAsset 1)).2.1).first_asset_pool *
      (((swap_to_exact 3 1000 stC 7 Asset.MainNetworkCurrency 1000
            (Asset.ParachainAsset 1) 0 0).2).getExchange
          (adjust_assets_order Asset.MainNetworkCurrency
            (Asset.ParachainAsset 1)).1
          (adjust_assets_order Asset.MainNetworkCurrency
            (Asset.ParachainAsset 1)).2.1).second_asset_pool ∧
    (1 : Nat) * 1 < exC.invariant ∧
    exC.update_pools 1 1 = .error .InvalidExchange :=
  ⟨by decide, by decide,
   (C2_invariant_monotonic 3 1000 stC 7 Asset.MainNetworkCurrency
       (Asset.ParachainAsset 1) 1000 0 0
       (.Exchanged 7 Asset.MainNetworkCurrency 1000 (Asset.ParachainAsset 1)
         998 (some 1)) exC 1 1).1 (by decide) (by decide),
   by decide,
   (C2_invariant_monotonic 3 1000 stC 7 Asset.MainNetworkCurrency
       (Asset.ParachainAsset 1) 1000 0 0
       (.Exchanged 7 Asset.MainNetworkCurrency 1000 (Asset.ParachainAsset 1)
         998 (some 1)) exC 1 1).2 (by decide)⟩

/-- Guard extraction: a passing ensure_exchange_not_exists means the stored
pool is degenerate. -/
theorem ensure_exchange_not_exists_ok (st : State) (a b : Asset) (u : Unit)
    (h : ensure_exchange_not_exists st a b = .ok u) :
    (st.getExchange a b).invariant = 0 := by
  have h2 : (if (st.getExchange a b).invariant = 0 then
      (Except.ok () : Except DexError Unit)
    else .error .ExchangeAlreadyExists) = .ok u := h
  split at h2 <;> simp_all

/-- C3 witness: a rejected initialize (zero first amount) returns the error
with the storage untouched, and the concrete swap of 1000 native into the
pool of stC with minimum output 1000 (above the computed 998) fails with
the second asset expectation error and leaves the storage untouched. -/
theorem C3_error_no_mutation_witness :
    (initialize_exchange stC 7 Asset.MainNetworkCurrency 0
        (Asset.ParachainAsset 1) 5).1 = .error .LowFirstAssetAmount ∧
    (initialize_exchange stC 7 Asset.MainNetworkCurrency 0
        (Asset.ParachainAsset 1) 5).2 = stC ∧
    ensure_valid_exchange Asset.MainNetworkCurrency (Asset.ParachainAsset 1) =
      .ok () ∧
    (998 : Nat) < 1000 ∧
    swap_to_exact 3 1000 stC 7 Asset.MainNetworkCurrency 1000
        (Asset.ParachainAsset 1) 1000 0 =
      (.error .SecondAssetAmountBelowExpectation, stC) :=
  ⟨by decide,
   (C3_error_no_mutation 3 1000 stC 7 Asset.MainNetworkCurrency
       (Asset.ParachainAsset 1) 0 5 0 0 .LowFirstAssetAmount exC
       ⟨998, 1999, 1002⟩ (some (1, 9))).1 (by decide),
   by decide, by decide,
   (C3_error_no_mutation 3 1000 stC 7 Asset.MainNetworkCurrency
       (Asset.ParachainAsset 1) 1000 1000 0 0 .LowFirstAssetAmount exC
       ⟨998, 1999, 1002⟩ (some (1, 9))).2.2.2.2
     (by decide) (by decide) (by decide) (by decide) (by decide)⟩

/-- C6: initialize_exchange fails with LowFirstAssetAmount or
LowSecondAssetAmount when a canonicalized amount is zero and with
ExchangeAlreadyExists when the stored pool is active, in each case leaving
the storage untouched; and every success implies both canonicalized
amounts were positive and the pool degenerate, deposits the Invested event
carrying shares equal to the canonical first amount, and produces exactly
the storage in which both amounts are debited from the sender and the pair
maps to the pool with the two reserves, the product invariant, total
shares equal to the first amount, and all shares owned by the sender. -/
theorem C6_initialize_exchange (st : State) (sender : Nat) (a1 : Asset)
    (x : Nat) (a2 : Asset) (y : Nat) (ev : RawEvent) :
    ((adjust_assets_amount_order a1 x a2 y).2.1 = 0 →
      initialize_exchange st sender a1 x a2 y =
        (.error .LowFirstAssetAmount, st)) ∧
    ((adjust_assets_amount_order a1 x a2 y).2.1 ≠ 0 →
      (adjust_assets_amount_order a1 x a2 y).2.2.2 = 0 →
      initialize_exchange st sender a1 x a2 y =
        (.error .LowSecondAssetAmount, st)) ∧
    ((adjust_assets_amount_order a1 x a2 y).2.1 ≠ 0 →
      (adjust_assets_amount_order a1 x a2 y).2.2.2 ≠ 0 →
      (st.getExchange (adjust_assets_amount_order a1 x a2 y).1
          (adjust_assets_amount_order a1 x a2 y).2.2.1).invariant ≠ 0 →
      initialize_exchange st sender a1 x a2 y =
        (.error .ExchangeAlreadyExists, st)) ∧
    ((initialize_exchange st sender a1 x a2 y).1 = .ok ev →
      (adjust_assets_amount_order a1 x a2 y).2.1 ≠ 0 ∧
      (adjust_assets_amount_order a1 x a2 y).2.2.2 ≠ 0 ∧
      (st.getExchange (adjust_assets_amount_order a1 x a2 y).1
          (adjust_assets_amount_order a1 x a2 y).2.2.1).invariant = 0 ∧
      ev = .Invested sender (adjust_assets_amount_order a1 x a2 y).1
        (adjust_assets_amount_order a1 x a2 y).2.2.1
        (adjust_assets_amount_order a1 x a2 y).2.1 ∧
      (initialize_exchange st sender a1 x a2 y).2 =
        { slash_assets st sender (adjust_assets_amount_order a1 x a2 y).1
            (adjust_assets_amount_order a1 x a2 y).2.1
            (adjust_assets_amount_order a1 x a2 y).2.2.1
            (adjust_assets_amount_order a1 x a2 y).2.2.2 with
            exchanges :=
              aset (slash_assets st sender (adjust_assets_amount_order a1 x a2 y).1
                  (adjust_assets_amount_order a1 x a2 y).2.1
                  (adjust_assets_amount_order a1 x a2 y).2.2.1
                  (adjust_assets_amount_order a1 x a2 y).2.2.2).exchanges
                ((adjust_assets_amount_order a1 x a2 y).1,
                  (adjust_assets_amount_order a1 x a2 y).2.2.1)
                { first_asset_pool := (adjust_assets_amount_order a1 x a2 y).2.1
                  second_asset_pool := (adjust_assets_amount_order a1 x a2 y).2.2.2
                  invariant := (adjust_assets_amount_order a1 x a2 y).2.1 *
                    (adjust_assets_amount_order a1 x a2 y).2.2.2
                  total_shares := (adjust_assets_amount_order a1 x a2 y).2.1
                  shares := [(sender, (adjust_assets_amount_order a1 x a2 y).2.1)] } }) := by
  refine ⟨?_, ?_, ?_, ?_⟩
  · intro h
    unfold initialize_exchange
    dsimp only
    simp [h]
  · intro h1 h2
    unfold initialize_exchange
    dsimp only
    simp [h1, h2]
  · intro h1 h2 h3
    unfold initialize_exchange
    dsimp only
    simp [h1, h2, ensure_exchange_not_exists, h3]
  · intro hok
    unfold initialize_exchange at hok ⊢
    dsimp only at hok ⊢
    split at hok
    · simp at hok
    · split at hok
      · simp at hok
      · split at hok
        · simp at hok
        · split at hok
          · simp at hok
          · split at hok
            · simp at hok
            · split at hok
              · simp at hok
              · rename_i h1 h2 xv av hnot xl al hlaunch xb ab hbal xi ex_shares hinit
                simp only [Exchange.initialize_new, Except.ok.injEq] at hinit
                subst hinit
                simp only [Except.ok.injEq] at hok
                subst hok
                refine ⟨h1, h2,
                  ensure_exchange_not_exists_ok st _ _ _ hnot, rfl, ?_⟩
                simp [h1, h2, hnot, hlaunch, hbal, Exchange.initialize_new]

/-- C6 witness: scenario 1 of the spec — initializing the pool of the
native currency and parachain asset 1 with (1000, 2000) from stInit
succeeds, deposits Invested with 1000 shares, stores reserves (1000, 2000)
with invariant 2000000 and all 1000 shares owned by the initiator, and
debits both amounts in full. -/
theorem C6_initialize_exchange_witness :
    (initialize_exchange stInit 7 Asset.MainNetworkCurrency 1000
        (Asset.ParachainAsset 1) 2000).1 =
      .ok (.Invested 7 Asset.MainNetworkCurrency (Asset.ParachainAsset 1) 1000) ∧
    (stInit.getExchange (adjust_assets_amount_order Asset.MainNetworkCurrency 1000
          (Asset.ParachainAsset 1) 2000).1
        (adjust_assets_amount_order Asset.MainNetworkCurrency 1000
          (Asset.ParachainAsset 1) 2000).2.2.1).invariant = 0 ∧
    (RawEvent.Invested 7 Asset.MainNetworkCurrency (Asset.ParachainAsset 1) 1000) =
      .Invested 7
        (adjust_assets_amount_order Asset.MainNetworkCurrency 1000
          (Asset.ParachainAsset 1) 2000).1
        (adjust_assets_amount_order Asset.MainNetworkCurrency 1000
          (Asset.ParachainAsset 1) 2000).2.2.1
        (adjust_assets_amount_order Asset.MainNetworkCurrency 1000
          (Asset.ParachainAsset 1) 2000).2.1 ∧
    (initialize_exchange stInit 7 Asset.MainNetworkCurrency 1000
        (Asset.ParachainAsset 1) 2000).2.getExchange Asset.MainNetworkCurrency
      (Asset.ParachainAsset 1) =
      { first_asset_pool := 1000, second_asset_pool := 2000
        invariant := 2000000, total_shares := 1000, shares := [(7, 1000)] } ∧
    (initialize_exchange stInit 7 Asset.MainNetworkCurrency 1000
        (Asset.ParachainAsset 1) 2000).2.free_balance 7 = 0 ∧
    (initialize_exchange stInit 7 Asset.MainNetworkCurrency 1000
        (Asset.ParachainAsset 1) 2000).2.asset_balance 7 1 = 0 :=
  ⟨by decide,
   ((C6_initialize_exchange stInit 7 Asset.MainNetworkCurrency 1000
       (Asset.ParachainAsset 1) 2000
       (.Invested 7 Asset.MainNetworkCurrency (Asset.ParachainAsset 1)
         1000)).2.2.2 (by decide)).2.2.1,
   ((C6_initialize_exchange stInit 7 Asset.MainNetworkCurrency 1000
       (Asset.ParachainAsset 1) 2000
       (.Invested 7 Asset.MainNetworkCurrency (Asset.ParachainAsset 1)
         1000)).2.2.2 (by decide)).2.2.2.1,
   by decide, by decide, by decide⟩

theorem asset_balance_exchanges_update (st : State) (m : List ((Asset × Asset) × Exchange))
    (acc j : Nat) :
    (State.asset_balance { st with exchanges := m } acc j) = st.asset_balance acc j := rfl

theorem asset_balance_slash_native (st : State) (who amt acc j : Nat) :
    (slash_asset st who Asset.MainNetworkCurrency amt).asset_balance acc j =
      st.asset_balance acc j := rfl

theorem asset_balance_mint_native (st : State) (dest amt acc j : Nat) :
    (mint_asset st dest Asset.MainNetworkCurrency amt).asset_balance acc j =
      st.asset_balance acc j := rfl

theorem asset_balance_slash_other (st : State) (who i amt acc j : Nat)
    (h : (acc, j) ≠ (who, i)) :
    (slash_asset st who (Asset.ParachainAsset i) amt).asset_balance acc j =
      st.asset_balance acc j := by
  simp only [slash_asset, State.asset_balance]
  rw [alookup_aset_other _ _ _ _ (Ne.symm h)]

theorem asset_balance_mint_other (st : State) (dest i amt acc j : Nat)
    (h : (acc, j) ≠ (dest, i)) :
    (mint_asset st dest (Asset.ParachainAsset i) amt).asset_balance acc j =
      st.asset_balance acc j := by
  cases hm : alookup st.asset_balances (dest, i) <;>
    simp only [mint_asset, hm, State.asset_balance] <;>
    rw [alookup_aset_other _ _ _ _ (Ne.symm h)]

theorem asset_balance_mint_self (st : State) (dest i amt : Nat) :
    (mint_asset st dest (Asset.ParachainAsset i) amt).asset_balance dest i =
      st.asset_balance dest i + amt := by
  cases hm : alookup st.asset_balances (dest, i) with
  | none =>
      simp [mint_asset, hm, State.asset_balance, alookup_aset_self]
  | some total =>
      simp [mint_asset, hm, State.asset_balance, alookup_aset_self]

/-- C9: the receiver argument of swap_to_exact has no effect — two calls
identical except for the receiver return identical dispatch results, events
and storage; every success event names the sender as the exchanging
account with the caller assets and input amount; and on success the output
amount is credited to the sender (shown for a parachain asset output: the
ledger entry of the sender for the output asset grows by exactly the
output amount). -/
theorem C9_receiver_ignored (feeNom feeDen : Nat) (st : State) (sender : Nat)
    (asset_in : Asset) (x : Nat) (asset_out : Asset) (y r1 r2 : Nat)
    (acct : Nat) (ain2 aout2 : Asset) (x2 out2 : Nat) (tf2 : Option Nat)
    (oid out : Nat) (tf : Option Nat) :
    swap_to_exact feeNom feeDen st sender asset_in x asset_out y r1 =
      swap_to_exact feeNom feeDen st sender asset_in x asset_out y r2 ∧
    ((swap_to_exact feeNom feeDen st sender asset_in x asset_out y r1).1 =
        .ok (.Exchanged acct ain2 x2 aout2 out2 tf2) →
      acct = sender ∧ ain2 = asset_in ∧ x2 = x ∧ aout2 = asset_out) ∧
    (asset_out = .ParachainAsset oid →
      (swap_to_exact feeNom feeDen st sender asset_in x asset_out y r1).1 =
        .ok (.Exchanged sender asset_in x asset_out out tf) →
      (swap_to_exact feeNom feeDen st sender asset_in x
          asset_out y r1).2.asset_balance sender oid =
        st.asset_balance sender oid + out) := by
  refine ⟨rfl, ?_, ?_⟩
  · intro hok
    unfold swap_to_exact at hok
    dsimp only at hok
    split at hok
    · simp at hok
    · split at hok
      · simp at hok
      · split at hok
        · simp at hok
        · split at hok
          · simp at hok
          · split at hok
            · simp at hok
            · simp only [Except.ok.injEq, RawEvent.Exchanged.injEq] at hok
              obtain ⟨h1, h2, h3, h4, -, -⟩ := hok
              exact ⟨h1.symm, h2.symm, h3.symm, h4.symm⟩
  · intro hao hok
    subst hao
    unfold swap_to_exact at hok ⊢
    dsimp only at hok ⊢
    split at hok
    · simp at hok
    · split at hok
      · simp at hok
      · split at hok
        · simp at hok
        · split at hok
          · simp at hok
          · split at hok
            · simp at hok
            · rename_i xv av hvalid xe exch hex xb ab hbal xsc dt hcalc xup ex1 hupd
              simp only [hvalid, hex, hbal, hcalc, hupd]
              simp only [Except.ok.injEq, RawEvent.Exchanged.injEq] at hok
              obtain ⟨-, -, -, -, hamt, -⟩ := hok
              cases av
              have hne : asset_in ≠ Asset.ParachainAsset oid :=
                ensure_valid_exchange_ne _ _ hvalid
              rcases hdt2 : dt.2 with _ | p
              · simp only [hdt2]
                rw [asset_balance_exchanges_update, asset_balance_mint_self, hamt]
                cases asset_in with
                | MainNetworkCurrency => rw [asset_balance_slash_native]
                | ParachainAsset j =>
                    have hj : j ≠ oid := fun hh => hne (by rw [hh])
                    rw [asset_balance_slash_other st sender j x sender oid
                      (fun hp => hj (congrArg Prod.snd hp).symm)]
              · simp only [hdt2]
                rw [asset_balance_exchanges_update]
                cases asset_in with
                | MainNetworkCurrency =>
                    rw [asset_balance_mint_native, asset_balance_mint_self, hamt,
                      asset_balance_slash_native]
                | ParachainAsset j =>
                    have hj : j ≠ oid := fun hh => hne (by rw [hh])
                    rw [asset_balance_mint_other _ p.2 j p.1 sender oid
                        (fun hp => hj (congrArg Prod.snd hp).symm),
                      asset_balance_mint_self, hamt,
                      asset_balance_slash_other st sender j x sender oid
                        (fun hp => hj (congrArg Prod.snd hp).symm)]

/-- C9 witness: the concrete swap of 1000 native into the pool of stC with
receivers 5 and 99 produces identical results, succeeds with the Exchanged
event naming sender 7, and credits the 998 output of parachain asset 1 to
sender 7, whose ledger entry grows from 500 to 1498. -/
theorem C9_receiver_ignored_witness :
    swap_to_exact 3 1000 stC 7 Asset.MainNetworkCurrency 1000
        (Asset.ParachainAsset 1) 0 5 =
      swap_to_exact 3 1000 stC 7 Asset.MainNetworkCurrency 1000
        (Asset.ParachainAsset 1) 0 99 ∧
    (swap_to_exact 3 1000 stC 7 Asset.MainNetworkCurrency 1000
        (Asset.ParachainAsset 1) 0 5).1 =
      .ok (.Exchanged 7 Asset.MainNetworkCurrency 1000 (Asset.ParachainAsset 1)
        998 (some 1)) ∧
    stC.asset_balance 7 1 = 500 ∧
    (swap_to_exact 3 1000 stC 7 Asset.MainNetworkCurrency 1000
        (Asset.ParachainAsset 1) 0 5).2.asset_balance 7 1 =
      stC.asset_balance 7 1 + 998 :=
  ⟨(C9_receiver_ignored 3 1000 stC 7 Asset.MainNetworkCurrency 1000
      (Asset.ParachainAsset 1) 0 5 99 7 Asset.MainNetworkCurrency
      (Asset.ParachainAsset 1) 1000 998 (some 1) 1 998 (some 1)).1,
   by decide, by decide,
   (C9_receiver_ignored 3 1000 stC 7 Asset.MainNetworkCurrency 1000
      (Asset.ParachainAsset 1) 0 5 99 7 Asset.MainNetworkCurrency
      (Asset.ParachainAsset 1) 1000 998 (some 1) 1 998 (some 1)).2.2
     (by decide) (by decide)⟩
